import Mathlib

/-!
Verification of the Lightmetrica light-transport core against its
natural-language specification.

The development shallowly embeds the C++ sources:
`src/renderer/renderer_pt_pixel.cpp` (`Renderer_PT`),
`src/renderer/renderer_volpt.cpp` (`Renderer_VolPT`),
`src/model/model_wavefrontobj.cpp` (`Model_WavefrontObj` and its mixture
materials), the glass and mask materials, the Henyey-Greenstein phase
function, and the `Scene` visibility / requirement-checking helpers.

Machine floats are embedded as exact rationals (reals only for the
Henyey-Greenstein density, which involves `sqrt` and `pi`).  Helper
routines of the repository whose definitions are not among the provided
sources (`math::balance_heuristic`, `math::safe_sqrt`, `math::refraction`,
`PointGeometry::opposite`, the scheduler's processed count) are modelled
from the specification text and marked as such.
-/

/-- Rational 3-vector standing for `lm::Vec3` (glm vec3 of Float). -/
structure Vec3 where
  x : ℚ
  y : ℚ
  z : ℚ
deriving DecidableEq, Repr

namespace Vec3

instance : Add Vec3 := ⟨fun a b => ⟨a.x + b.x, a.y + b.y, a.z + b.z⟩⟩
instance : Sub Vec3 := ⟨fun a b => ⟨a.x - b.x, a.y - b.y, a.z - b.z⟩⟩
instance : Neg Vec3 := ⟨fun a => ⟨-a.x, -a.y, -a.z⟩⟩
instance : SMul ℚ Vec3 := ⟨fun s a => ⟨s * a.x, s * a.y, s * a.z⟩⟩
instance : Zero Vec3 := ⟨⟨0, 0, 0⟩⟩

/-- Componentwise product is not needed; the dot product is. -/
def dot (a b : Vec3) : ℚ := a.x * b.x + a.y * b.y + a.z * b.z

/-- Maximum component, `glm::compMax`. -/
def compMax (a : Vec3) : ℚ := max a.x (max a.y a.z)

/-- The constant vector `Vec3(s)`. -/
def splat3 (s : ℚ) : Vec3 := ⟨s, s, s⟩

end Vec3

/-!  ## PT integrator (`renderer_pt_pixel.cpp`)  -/

/-- Sampling mode of `Renderer_PT` (`enum class PTMode`). -/
inductive PTMode
  | Naive
  | NEE
  | MIS
deriving DecidableEq, Repr

/-- Image sampling strategy of `Renderer_PT` (`enum class ImageSampleMode`). -/
inductive ImageSampleMode
  | Pixel
  | Image
deriving DecidableEq, Repr

/-- Modelled from the spec: `math::balance_heuristic` is not among the
provided sources; the spec defines `balance_heuristic(a, b) = a / (a + b)`
with `0/0 ≝ 0`.  Rational division by zero yields `0` in Lean, matching the
convention. -/
def balance_heuristic (a b : ℚ) : ℚ := a / (a + b)

/-- The `nee` flag of `Renderer_PT::render`: whether a NEE edge is sampled
at the current vertex.  `specular` stands for
`scene_->is_specular(s->sp, s->comp)` and `length` for the loop counter. -/
def nee_enabled (mode : PTMode) (imode : ImageSampleMode)
    (specular : Bool) (length : ℕ) : Bool :=
  if mode = PTMode.Naive then
    false
  else if imode = ImageSampleMode.Pixel then
    decide (length > 0) && !specular
  else
    !specular

/-- The `directL` flag of the NEE block of `Renderer_PT::render`:
the light is samplable by the direct-direction strategy.  `specularL`
stands for `scene_->is_specular(sL->sp, sL->comp)` and `degeneratedL` for
`sL->sp.geom.degenerated`. -/
def direct_samplable (specularL degeneratedL : Bool) : Bool :=
  !specularL && !degeneratedL

/-- The `misw` computation of the NEE block of `Renderer_PT::render`.
`pd` stands for `scene_->pdf_direct(s->sp, sL->sp, sL->comp, sL->wo)` and
`pdir` for `scene_->pdf_direction(s->sp, s->comp, wi, wo)`. -/
def nee_mis_weight (mode : PTMode) (specularL degeneratedL : Bool)
    (pd pdir : ℚ) : ℚ :=
  if mode = PTMode.NEE then
    1
  else if !(direct_samplable specularL degeneratedL) then
    1
  else
    balance_heuristic pd pdir

/-- The film, `lm::Film`, as a flat grid of rational values.  Only `rescale`
matters for the claims below. -/
def Film := List ℚ

/-- `Film::rescale(s)` multiplies every cell by `s`. -/
def Film.rescale (s : ℚ) (f : Film) : Film := f.map (fun v => v * s)

/-- The final rescale step of `Renderer_PT::render`.  `processed` is the
count returned by `sched_->run`; `w`, `h` is the film size. -/
def pt_final_rescale (imode : ImageSampleMode) (w h : ℕ) (processed : ℚ)
    (f : Film) : Film :=
  if imode = ImageSampleMode.Pixel then
    Film.rescale (1 / processed) f
  else
    Film.rescale ((w * h : ℚ) / processed) f

/-!  ## Scene requirement checking (`Scene::require_renderable`)  -/

/-- Error kinds thrown by the engine (`lm::Error`). -/
inductive ErrorKind
  | Unsupported
  | IOError
  | InvalidArgument
  | NotFound
deriving DecidableEq, Repr

/-- The observable scene state queried by the requirement checks:
`num_nodes()`, `camera_node()`, `num_lights()` and whether `accel()` is
non-null. -/
structure SceneState where
  num_nodes : ℤ
  camera_node : ℤ
  num_lights : ℤ
  accel : Bool
deriving DecidableEq, Repr

/-- `Scene::require_primitive`. -/
def require_primitive (s : SceneState) : Except ErrorKind Unit :=
  if s.num_nodes > 1 then Except.ok () else Except.error ErrorKind.Unsupported

/-- `Scene::require_camera`. -/
def require_camera (s : SceneState) : Except ErrorKind Unit :=
  if s.camera_node ≠ -1 then Except.ok () else Except.error ErrorKind.Unsupported

/-- `Scene::require_light`. -/
def require_light (s : SceneState) : Except ErrorKind Unit :=
  if s.num_lights > 0 then Except.ok () else Except.error ErrorKind.Unsupported

/-- `Scene::require_accel`. -/
def require_accel (s : SceneState) : Except ErrorKind Unit :=
  if s.accel then Except.ok () else Except.error ErrorKind.Unsupported

/-- `Scene::require_renderable`: runs the four checks in order, propagating
the first failure. -/
def require_renderable (s : SceneState) : Except ErrorKind Unit := do
  require_primitive s
  require_camera s
  require_light s
  require_accel s

/-!  ## MixtureWithAlpha material (`Material_WavefrontObj_Mixture`)  -/

/-- Sign of a rational number, used to compare half-planes. -/
def rsign (q : ℚ) : ℤ := if q < 0 then -1 else if 0 < q then 1 else 0

/-- Shading-point geometry; only the shading normal matters for the
half-plane test. -/
structure PointGeometry where
  n : Vec3
deriving DecidableEq

/-- Modelled from the spec: `PointGeometry::opposite` is not among the
provided sources; the spec states the opposite-half-plane condition as
`sign(wo·n) ≠ sign(wi·n)`. -/
def PointGeometry.opposite (geom : PointGeometry) (wi wo : Vec3) : Bool :=
  decide (rsign (Vec3.dot wi geom.n) ≠ rsign (Vec3.dot wo geom.n))

/-- The behaviour of the three sub-materials of
`Material_WavefrontObj_Mixture` at a fixed shading point: the lobe pdfs and
evals as functions of `(wi, wo)`, the `compMax` of the diffuse and glossy
reflectances at the point, and the evaluated alpha `eval_alpha(geom)`. -/
structure LobeSet where
  pdfD : Vec3 → Vec3 → ℚ
  pdfG : Vec3 → Vec3 → ℚ
  pdfA : Vec3 → Vec3 → ℚ
  evalD : Vec3 → Vec3 → Vec3
  evalG : Vec3 → Vec3 → Vec3
  evalA : Vec3 → Vec3 → Vec3
  reflD : ℚ
  reflG : ℚ
  alpha : ℚ

/-- Component indices of the mixture: `Comp_Diffuse = 0`, `Comp_Glossy = 1`,
`Comp_Alpha = 2`.  Lobe pdf dispatch, `material_by_comp(c)->pdf_direction`. -/
def lobe_pdf (L : LobeSet) (c : ℕ) : Vec3 → Vec3 → ℚ :=
  if c = 0 then L.pdfD else if c = 1 then L.pdfG else L.pdfA

/-- Lobe eval dispatch, `material_by_comp(c)->eval`. -/
def lobe_eval (L : LobeSet) (c : ℕ) : Vec3 → Vec3 → Vec3 :=
  if c = 0 then L.evalD else if c = 1 then L.evalG else L.evalA

/-- `Material_WavefrontObj_Mixture::diffuse_selection_weight`. -/
def diffuse_selection_weight (L : LobeSet) : ℚ :=
  if L.reflD = 0 ∧ L.reflG = 0 then 1 else L.reflD / (L.reflD + L.reflG)

/-- `Material_WavefrontObj_Mixture::pdf_comp_select`. -/
def pdf_comp_select (L : LobeSet) (comp : ℕ) : ℚ :=
  if comp = 2 then 1 - L.alpha
  else if comp = 0 then L.alpha * diffuse_selection_weight L
  else L.alpha * (1 - diffuse_selection_weight L)

/-- `Material_WavefrontObj_Mixture::eval_mix_weight`. -/
def eval_mix_weight (L : LobeSet) (comp : ℕ) : ℚ :=
  if comp = 2 then 1 - L.alpha else L.alpha

/-- `Material_WavefrontObj_Mixture::pdf_direction`: in the opposite
half-plane only the Alpha strategy is samplable; otherwise the marginal over
Diffuse and Glossy. -/
def mixture_pdf_direction (L : LobeSet) (geom : PointGeometry)
    (wi wo : Vec3) : ℚ :=
  let eval_pdf := fun c => pdf_comp_select L c * lobe_pdf L c wi wo
  if geom.opposite wi wo then
    eval_pdf 2
  else
    eval_pdf 0 + eval_pdf 1

/-- `Material_WavefrontObj_Mixture::eval`: same half-plane convention with
the mixture weights. -/
def mixture_eval (L : LobeSet) (geom : PointGeometry) (wi wo : Vec3) : Vec3 :=
  let eval_f := fun c => eval_mix_weight L c • lobe_eval L c wi wo
  if geom.opposite wi wo then
    eval_f 2
  else
    eval_f 0 + eval_f 1

/-!  ## Wavefront OBJ material mapping (`Model_WavefrontObj::construct`)  -/

/-- MTL material record delivered by the OBJ loader, restricted to the
fields the material mapping reads. -/
structure MTLMatParams where
  Kd : Vec3
  Ks : Vec3
  Ni : ℚ
  Ns : ℚ
  an : ℚ
  illum : ℤ
deriving DecidableEq

/-- The material asset created for one MTL record. -/
inductive MaterialDesc
  | mirror
  | glass (Ni : ℚ)
  | diffuse (Kd : Vec3)
  | mixture (without_alpha : Bool) (Kd Ks : Vec3) (ax ay : ℚ)
deriving DecidableEq

/-- The material-creation branch of `Model_WavefrontObj::construct`
(`NO_MIXTURE_MATERIAL = 0`, so the mixture branch is active).  `sq` stands
for `math::safe_sqrt`, which is not among the provided sources and is kept
abstract; the spec describes `as = √(1 - 0.9·an)`. -/
def load_material (sq : ℚ → ℚ) (skip_specular_mat : Bool)
    (m : MTLMatParams) : MaterialDesc :=
  if m.illum = 5 ∨ m.illum = 7 then
    if skip_specular_mat then
      MaterialDesc.diffuse 0
    else if m.illum = 7 then
      MaterialDesc.glass m.Ni
    else
      MaterialDesc.mirror
  else
    let r := 2 / (2 + m.Ns)
    let as_ := sq (1 - m.an * (9/10))
    MaterialDesc.mixture skip_specular_mat m.Kd m.Ks
      (max (1/1000) (r / as_)) (max (1/1000) (r * as_))

/-!  ## Glass material (`Material_Glass`)  -/

/-- `math::reflection`, as documented with the mirror material:
`ω_refl = 2(ω_i·n)n − ω_i`. -/
def math.reflection (wi n : Vec3) : Vec3 := (2 * Vec3.dot wi n) • n - wi

/-- Modelled from the spec: `math::refraction` is not among the provided
sources; the spec gives
`wt = -η·wi + (η(wi·n) - √(1 - η²(1-(wi·n)²)))·n`, with
`total_internal = true` when the discriminant is negative (the returned
direction is then unused).  `sq` stands for the square root. -/
def math.refraction (sq : ℚ → ℚ) (wi n : Vec3) (eta : ℚ) : Vec3 × Bool :=
  let c := Vec3.dot wi n
  let disc := 1 - eta ^ 2 * (1 - c ^ 2)
  if disc < 0 then
    (0, true)
  else
    ((-eta) • wi + (eta * c - sq disc) • n, false)

/-- The cosine picked by `Material_Glass::fresnel`: `wi·n` on the incident
side, `wt·n` otherwise. -/
def fresnel_cos (wi wt n : Vec3) : ℚ :=
  if 0 < Vec3.dot wi n then Vec3.dot wi n else Vec3.dot wt n

/-- `Material_Glass::fresnel`, Schlick's approximation with
`r = (1-Ni)/(1+Ni)` and a fifth power of `1 - cos`. -/
def glass_fresnel (Ni : ℚ) (wi wt n : Vec3) : ℚ :=
  let cos := fresnel_cos wi wt n
  let r := (1 - Ni) / (1 + Ni)
  let r2 := r * r
  r2 + (1 - r2) * (1 - cos) ^ 5

/-- Result record of `Material::sample_direction`: sampled direction,
component index and weight. -/
structure MaterialDirectionSample where
  wo : Vec3
  comp : ℤ
  weight : Vec3
deriving DecidableEq

/-- `Material_Glass::sample_direction`: choose the side, compute refraction
and the Fresnel factor (1 on total internal reflection), then reflect when
`u < Fr` and refract otherwise, with the `η²` radiance-transport factor on
the refraction weight.  `u` is the uniform number drawn from `rng.u()`. -/
def glass_sample_direction (sq : ℚ → ℚ) (Ni : ℚ) (n wi : Vec3) (u : ℚ) :
    MaterialDirectionSample :=
  let inb := 0 < Vec3.dot wi n
  let n2 := if inb then n else -n
  let eta := if inb then 1 / Ni else Ni
  let p := math.refraction sq wi n2 eta
  let Fr := if p.2 then 1 else glass_fresnel Ni wi p.1 n
  if u < Fr then
    ⟨math.reflection wi n, 0, Vec3.splat3 1⟩
  else
    ⟨p.1, 1, Vec3.splat3 (eta * eta)⟩

/-!  ## VolPT loop body (`Renderer_VolPT::render`)  -/

/-- Oracle values consumed by one iteration of the VolPT random walk:
outcomes of the scene sampling calls and the scalar quantities they
return. -/
structure VolPTIterIn where
  specular_comp : Bool
  sL_ok : Bool
  rp_ok : Bool
  Tr : ℚ
  fs_nee : ℚ
  sL_weight : ℚ
  s_ok : Bool
  s_weight : ℚ
  sd_ok : Bool
  sd_weight : ℚ
  sd_isLight : Bool
  Le : ℚ
  throughput : ℚ

/-- Which block of the VolPT loop produced a film splat. -/
inductive SplatSrc
  | nee
  | emissive
deriving DecidableEq

/-- One iteration of the random walk of `Renderer_VolPT::render`, recording
the splats it performs: the NEE block runs when the current component is not
specular (`samplable_by_nee`), then direction and distance sampling, then
the emissive block which runs only when `!samplable_by_nee` and the sampled
interaction is a light. -/
def volpt_step (o : VolPTIterIn) : List (SplatSrc × ℚ) :=
  let samplable_by_nee := !o.specular_comp
  let neeSplat : List (SplatSrc × ℚ) :=
    if samplable_by_nee then
      if o.sL_ok && o.rp_ok && !(decide (o.Tr = 0)) && !(decide (o.fs_nee = 0)) then
        [(SplatSrc.nee, o.throughput * o.Tr * o.fs_nee * o.sL_weight)]
      else []
    else []
  if !o.s_ok then
    neeSplat
  else if !o.sd_ok then
    neeSplat
  else
    let thr := o.throughput * o.s_weight * o.sd_weight
    neeSplat ++
      (if !samplable_by_nee && o.sd_isLight then
        [(SplatSrc.emissive, thr * o.Le)]
      else [])

/-!  ## Henyey-Greenstein phase function (`Phase_HenyeyGreenstein`)  -/

/-- Real 3-vector for the phase function, whose density involves `sqrt`
and `π`. -/
structure Vec3R where
  x : ℝ
  y : ℝ
  z : ℝ

/-- Dot product on real vectors. -/
noncomputable def dotR (a b : Vec3R) : ℝ := a.x * b.x + a.y * b.y + a.z * b.z

/-- The constant real vector `Vec3(s)`. -/
def splatR (s : ℝ) : Vec3R := ⟨s, s, s⟩

/-- `Phase_HenyeyGreenstein::pdf_direction`:
`(1-g²) / (t·√t) / (4π)` with `t = 1 + g² + 2g(wi·wo)`. -/
noncomputable def hg_pdf_direction (g : ℝ) (wi wo : Vec3R) : ℝ :=
  let t := 1 + g * g + 2 * g * dotR wi wo
  (1 - g * g) / (t * Real.sqrt t) / (Real.pi * 4)

/-- `Phase_HenyeyGreenstein::eval`: returns `Vec3(pdf_direction(...))`. -/
noncomputable def hg_eval (g : ℝ) (wi wo : Vec3R) : Vec3R :=
  splatR (hg_pdf_direction g wi wo)

/-!  ## Scene visibility (`Scene::visible`)  -/

/-- Point geometry of a scene interaction: position, infinite flag, and the
stored direction for infinite (environment) hits. -/
structure SPGeom where
  p : Vec3
  infinite : Bool
  wo : Vec3
deriving DecidableEq

/-- A scene interaction, restricted to the geometry record that `visible`
reads. -/
structure SceneInteraction where
  geom : SPGeom
deriving DecidableEq

/-- `glm::distance(a, b)` through a supplied square-root function `sq`. -/
def distQ (sq : ℚ → ℚ) (a b : Vec3) : ℚ := sq (Vec3.dot (b - a) (b - a))

/-- `glm::normalize(v)` through a supplied square-root function `sq`. -/
def normalizeQ (sq : ℚ → ℚ) (v : Vec3) : Vec3 :=
  (1 / sq (Vec3.dot v v)) • v

/-- Candidate ray parameter at which `q` could lie on the ray `p + t·w`:
the component equation solved at the first nonzero coordinate of `w`. -/
def rayHitT (p w q : Vec3) : Option ℚ :=
  if w.x ≠ 0 then some ((q.x - p.x) / w.x)
  else if w.y ≠ 0 then some ((q.y - p.y) / w.y)
  else if w.z ≠ 0 then some ((q.z - p.z) / w.z)
  else none

/-- Whether occluder point `q` blocks the ray `p + t·w` strictly within
`(tmin, tmax)`. -/
def hitOne (p w q : Vec3) (tmin tmax : ℚ) : Bool :=
  match rayHitT p w q with
  | some t => decide (p + t • w = q ∧ tmin < t ∧ t < tmax)
  | none => false

/-- Modelled from the spec: `Scene::intersect` ("closest hit") is not among
the provided sources; `visible` only consumes its hit / no-hit outcome, so
the query is modelled over a scene given as a finite list of occluder
points: a hit is reported iff some occluder lies on the ray strictly within
`(tmin, tmax)`. -/
def intersectHit (occ : List Vec3) (p w : Vec3) (tmin tmax : ℚ) : Bool :=
  occ.any fun q => hitOne p w q tmin tmax

/-- The inner lambda `visible_` of `Scene::visible`: shoot a shadow ray from
`sp1` toward `sp2`; `tmax` is shortened to `d·(1-ε)` (or kept below `Inf`
for an infinite endpoint so the environment is excluded).  `eps` stands for
the global `Eps` and `infV` for `Inf`, neither of which is among the
provided sources. -/
def visibleAux (sq : ℚ → ℚ) (eps infV : ℚ) (occ : List Vec3)
    (sp1 sp2 : SceneInteraction) : Bool :=
  let wo := if sp2.geom.infinite then -sp2.geom.wo
            else normalizeQ sq (sp2.geom.p - sp1.geom.p)
  let tmax := if sp2.geom.infinite then infV - 1
              else distQ sq sp1.geom.p sp2.geom.p * (1 - eps)
  !(intersectHit occ sp1.geom.p wo eps tmax)

/-- `Scene::visible`: swap the endpoints when the first is infinite, then
run the shadow-ray test. -/
def visible (sq : ℚ → ℚ) (eps infV : ℚ) (occ : List Vec3)
    (sp1 sp2 : SceneInteraction) : Bool :=
  if sp1.geom.infinite then visibleAux sq eps infV occ sp2 sp1
  else visibleAux sq eps infV occ sp1 sp2

/-!  ## Unfolding lemmas for the vector operations  -/

namespace Vec3

theorem add_def (a b : Vec3) : a + b = ⟨a.x + b.x, a.y + b.y, a.z + b.z⟩ := rfl
theorem sub_def (a b : Vec3) : a - b = ⟨a.x - b.x, a.y - b.y, a.z - b.z⟩ := rfl
theorem neg_def (a : Vec3) : -a = ⟨-a.x, -a.y, -a.z⟩ := rfl
theorem smul_def (s : ℚ) (a : Vec3) : s • a = ⟨s * a.x, s * a.y, s * a.z⟩ := rfl

theorem ext3 (a b : Vec3) (hx : a.x = b.x) (hy : a.y = b.y) (hz : a.z = b.z) :
    a = b := by
  cases a; cases b; simp_all

end Vec3

theorem Vec3.dot_sub_comm (a b : Vec3) :
    Vec3.dot (a - b) (a - b) = Vec3.dot (b - a) (b - a) := by
  simp only [Vec3.dot, Vec3.sub_def]
  ring

theorem Vec3.eq_iff (a b : Vec3) :
    a = b ↔ a.x = b.x ∧ a.y = b.y ∧ a.z = b.z := by
  cases a; cases b; simp_all

theorem Vec3.one_smul3 (v : Vec3) : (1 : ℚ) • v = v := by
  apply Vec3.ext3 <;> simp [Vec3.smul_def]

/-- Reversing a shadow ray between two points at unit distance tests the
same occluder set: the candidate parameter maps as `t ↦ 1 - t` and the
trimmed interval `(ε, 1-ε)` is preserved. -/
theorem hitOne_reverse (p1 p2 q : Vec3) (eps : ℚ) :
    hitOne p2 (p1 - p2) q eps (1 - eps) = hitOne p1 (p2 - p1) q eps (1 - eps) := by
  by_cases hx : p2.x - p1.x = 0
  · by_cases hy : p2.y - p1.y = 0
    · by_cases hz : p2.z - p1.z = 0
      · have hx' : p1.x - p2.x = 0 := by linarith
        have hy' : p1.y - p2.y = 0 := by linarith
        have hz' : p1.z - p2.z = 0 := by linarith
        simp [hitOne, rayHitT, Vec3.sub_def, hx, hy, hz, hx', hy', hz']
      · have hx' : p1.x - p2.x = 0 := by linarith
        have hy' : p1.y - p2.y = 0 := by linarith
        have hz' : p1.z - p2.z ≠ 0 := fun h => hz (by linarith)
        simp only [hitOne, rayHitT, Vec3.sub_def, hx, hy, hz, hx', hy', hz',
          if_false, if_true, ne_eq, not_true_eq_false, not_false_eq_true,
          reduceIte]
        rw [decide_eq_decide]
        have ht : (q.z - p2.z) / (p1.z - p2.z) =
            1 - (q.z - p1.z) / (p2.z - p1.z) := by
          field_simp
          ring
        rw [ht]
        simp only [Vec3.add_def, Vec3.smul_def, Vec3.eq_iff]
        constructor
        · rintro ⟨⟨e1, e2, e3⟩, h2, h3⟩
          refine ⟨⟨by linear_combination e1 - hx, by linear_combination e2 - hy,
            by linear_combination e3⟩, by linarith, by linarith⟩
        · rintro ⟨⟨e1, e2, e3⟩, h2, h3⟩
          refine ⟨⟨by linear_combination e1 + hx, by linear_combination e2 + hy,
            by linear_combination e3⟩, by linarith, by linarith⟩
    · have hy' : p1.y - p2.y ≠ 0 := fun h => hy (by linarith)
      have hx' : p1.x - p2.x = 0 := by linarith
      simp only [hitOne, rayHitT, Vec3.sub_def, hx, hy, hx', hy',
        if_false, if_true, ne_eq, not_true_eq_false, not_false_eq_true,
        reduceIte]
      rw [decide_eq_decide]
      have ht : (q.y - p2.y) / (p1.y - p2.y) =
          1 - (q.y - p1.y) / (p2.y - p1.y) := by
        field_simp
        ring
      rw [ht]
      simp only [Vec3.add_def, Vec3.smul_def, Vec3.eq_iff]
      constructor
      · rintro ⟨⟨e1, e2, e3⟩, h2, h3⟩
        refine ⟨⟨by linear_combination e1 - hx, by linear_combination e2,
          by linear_combination e3⟩, by linarith, by linarith⟩
      · rintro ⟨⟨e1, e2, e3⟩, h2, h3⟩
        refine ⟨⟨by linear_combination e1 + hx, by linear_combination e2,
          by linear_combination e3⟩, by linarith, by linarith⟩
  · have hx' : p1.x - p2.x ≠ 0 := fun h => hx (by linarith)
    simp only [hitOne, rayHitT, Vec3.sub_def, hx, hx',
      if_false, if_true, ne_eq, not_true_eq_false, not_false_eq_true,
      reduceIte]
    rw [decide_eq_decide]
    have ht : (q.x - p2.x) / (p1.x - p2.x) =
        1 - (q.x - p1.x) / (p2.x - p1.x) := by
      field_simp
      ring
    rw [ht]
    simp only [Vec3.add_def, Vec3.smul_def, Vec3.eq_iff]
    constructor
    · rintro ⟨⟨e1, e2, e3⟩, h2, h3⟩
      refine ⟨⟨by linear_combination e1, by linear_combination e2,
        by linear_combination e3⟩, by linarith, by linarith⟩
    · rintro ⟨⟨e1, e2, e3⟩, h2, h3⟩
      refine ⟨⟨by linear_combination e1, by linear_combination e2,
        by linear_combination e3⟩, by linarith, by linarith⟩

/-!  ## Claims C1, C2, C3, C8  -/

/-- C1: in the PT integrator's NEE contribution the MIS weight is 1 when
the mode is NEE or the sampled light endpoint is specular or degenerated;
otherwise it is the balance heuristic of `pdf_direct` and `pdf_direction`,
where `balance_heuristic(a,b) = a/(a+b)` with `0/0 = 0`. -/
theorem C1_nee_mis_weight (mode : PTMode) (specularL degeneratedL : Bool)
    (pd pdir : ℚ) (hmode : mode ≠ PTMode.Naive) :
    (nee_mis_weight mode specularL degeneratedL pd pdir =
      if mode = PTMode.NEE ∨ specularL = true ∨ degeneratedL = true then 1
      else balance_heuristic pd pdir) ∧
    balance_heuristic pd pdir = pd / (pd + pdir) ∧
    balance_heuristic 0 0 = 0 := by
  refine ⟨?_, rfl, by simp [balance_heuristic]⟩
  cases mode with
  | Naive => exact absurd rfl hmode
  | NEE => simp [nee_mis_weight]
  | MIS =>
    cases specularL <;> cases degeneratedL <;>
      simp [nee_mis_weight, direct_samplable]

/-- C1 witness: evaluated at MIS mode with a direct-samplable light. -/
theorem C1_nee_mis_weight_witness :
    nee_mis_weight PTMode.MIS false false (1/2) (1/4) =
      balance_heuristic (1/2) (1/4) ∧
    balance_heuristic (1/2) (1/4) = (1/2) / (1/2 + 1/4) ∧
    balance_heuristic 0 0 = 0 := by
  have h := C1_nee_mis_weight PTMode.MIS false false (1/2) (1/4) (by decide)
  exact ⟨by rw [h.1]; simp, h.2.1, h.2.2⟩

/-- C2: the PT integrator samples a NEE edge iff the mode is not Naive, the
sampled component is not specular, and either the image sample mode is
Image or the vertex is not the primary one; in particular, in Pixel mode
NEE is disabled on the primary vertex. -/
theorem C2_nee_enabled (mode : PTMode) (imode : ImageSampleMode)
    (specular : Bool) (length : ℕ) :
    (nee_enabled mode imode specular length = true ↔
      mode ≠ PTMode.Naive ∧ specular = false ∧
        (imode = ImageSampleMode.Image ∨ 0 < length)) ∧
    nee_enabled mode ImageSampleMode.Pixel specular 0 = false := by
  constructor
  · cases mode <;> cases imode <;> cases specular <;>
      simp [nee_enabled]
  · cases mode <;> cases specular <;> simp [nee_enabled]

/-- C3: after the walk the film is rescaled by `1 / processed` in Pixel
mode (processed samples per pixel) and by `W·H / processed` in Image mode
(processed total samples); every cell is multiplied by that factor. -/
theorem C3_pt_final_rescale (w h : ℕ) (processed : ℚ) (f : Film) :
    pt_final_rescale ImageSampleMode.Pixel w h processed f =
      f.map (fun v => v * (1 / processed)) ∧
    pt_final_rescale ImageSampleMode.Image w h processed f =
      f.map (fun v => v * ((w * h : ℚ) / processed)) := by
  constructor <;> rfl

/-- C8: `require_renderable` succeeds iff the scene has a primitive beyond
the root node, a camera, a light, and an acceleration structure; otherwise
it throws `Unsupported`. -/
theorem C8_require_renderable (s : SceneState) :
    (require_renderable s = Except.ok () ↔
      1 < s.num_nodes ∧ s.camera_node ≠ -1 ∧ 0 < s.num_lights ∧
        s.accel = true) ∧
    (require_renderable s = Except.error ErrorKind.Unsupported ↔
      ¬(1 < s.num_nodes ∧ s.camera_node ≠ -1 ∧ 0 < s.num_lights ∧
        s.accel = true)) := by
  by_cases h1 : s.num_nodes > 1 <;>
    by_cases h2 : s.camera_node ≠ -1 <;>
      by_cases h3 : s.num_lights > 0 <;>
        cases ha : s.accel <;>
          simp [require_renderable, require_primitive, require_camera,
            require_light, require_accel, h1, h2, h3, ha, Bind.bind,
            Except.bind]

/-!  ## Claims C4, C7  -/

/-- C4: for the MixtureWithAlpha material, when `wi` and `wo` lie in
opposite half-planes w.r.t. the normal, `eval` and `pdf_direction` reduce to
the Alpha lobe alone weighted by its selection probability `1 - α`;
otherwise they are the Diffuse and Glossy contributions only, with the
Alpha lobe excluded. -/
theorem C4_mixture_alpha_halfplane (L : LobeSet) (geom : PointGeometry)
    (wi wo : Vec3) :
    (geom.opposite wi wo = true →
      mixture_pdf_direction L geom wi wo = (1 - L.alpha) * L.pdfA wi wo ∧
      mixture_eval L geom wi wo = (1 - L.alpha) • L.evalA wi wo) ∧
    (geom.opposite wi wo = false →
      mixture_pdf_direction L geom wi wo =
        L.alpha * diffuse_selection_weight L * L.pdfD wi wo +
        L.alpha * (1 - diffuse_selection_weight L) * L.pdfG wi wo ∧
      mixture_eval L geom wi wo =
        L.alpha • L.evalD wi wo + L.alpha • L.evalG wi wo) ∧
    (geom.opposite wi wo = true ↔
      rsign (Vec3.dot wi geom.n) ≠ rsign (Vec3.dot wo geom.n)) := by
  refine ⟨fun h => ?_, fun h => ?_, ?_⟩
  · constructor <;>
      simp [mixture_pdf_direction, mixture_eval, h, lobe_pdf, lobe_eval,
        pdf_comp_select, eval_mix_weight]
  · constructor <;>
      simp [mixture_pdf_direction, mixture_eval, h, lobe_pdf, lobe_eval,
        pdf_comp_select, eval_mix_weight]
  · simp [PointGeometry.opposite]

/-- C4 witness: a concrete lobe set evaluated on both half-planes. -/
theorem C4_mixture_alpha_halfplane_witness :
    (let L : LobeSet :=
      ⟨fun _ _ => 1/3, fun _ _ => 1/5, fun _ _ => 1/7,
       fun _ _ => Vec3.splat3 (1/3), fun _ _ => Vec3.splat3 (1/5),
       fun _ _ => Vec3.splat3 (1/7), 1/2, 1/4, 1/8⟩
     let geom : PointGeometry := ⟨⟨0, 0, 1⟩⟩
     mixture_pdf_direction L geom ⟨0, 0, 1⟩ ⟨0, 0, -1⟩ =
         (1 - 1/8) * (1/7) ∧
       mixture_pdf_direction L geom ⟨0, 0, 1⟩ ⟨0, 0, 1⟩ =
         (1/8) * (2/3) * (1/3) + (1/8) * (1 - 2/3) * (1/5)) := by
  have h1 := C4_mixture_alpha_halfplane
    ⟨fun _ _ => 1/3, fun _ _ => 1/5, fun _ _ => 1/7,
     fun _ _ => Vec3.splat3 (1/3), fun _ _ => Vec3.splat3 (1/5),
     fun _ _ => Vec3.splat3 (1/7), 1/2, 1/4, 1/8⟩
    ⟨⟨0, 0, 1⟩⟩ ⟨0, 0, 1⟩ ⟨0, 0, -1⟩
  have h2 := C4_mixture_alpha_halfplane
    ⟨fun _ _ => 1/3, fun _ _ => 1/5, fun _ _ => 1/7,
     fun _ _ => Vec3.splat3 (1/3), fun _ _ => Vec3.splat3 (1/5),
     fun _ _ => Vec3.splat3 (1/7), 1/2, 1/4, 1/8⟩
    ⟨⟨0, 0, 1⟩⟩ ⟨0, 0, 1⟩ ⟨0, 0, 1⟩
  refine ⟨(h1.1 (by norm_num [PointGeometry.opposite, Vec3.dot, rsign])).1, ?_⟩
  have h2' := (h2.2.1 (by norm_num [PointGeometry.opposite, Vec3.dot, rsign])).1
  rw [h2']
  norm_num [diffuse_selection_weight]

/-- C7: the MTL `illum` mapping of the OBJ model: `5 → mirror`,
`7 → glass (Ni)`, otherwise the diffuse+glossy mixture with
`ax = max(1e-3, r/as)`, `ay = max(1e-3, r·as)`, `r = 2/(2+Ns)`,
`as = safe_sqrt(1 - 0.9·an)`; with `skip_specular_mat` set, `illum ∈ {5,7}`
yields a zero-albedo diffuse and the mixture uses the
`marginal_without_alpha` variant. -/
theorem C7_load_material (sq : ℚ → ℚ) (skip : Bool) (m : MTLMatParams) :
    (skip = false → m.illum = 5 → load_material sq skip m = MaterialDesc.mirror) ∧
    (skip = false → m.illum = 7 →
      load_material sq skip m = MaterialDesc.glass m.Ni) ∧
    (skip = true → m.illum = 5 ∨ m.illum = 7 →
      load_material sq skip m = MaterialDesc.diffuse 0) ∧
    (m.illum ≠ 5 → m.illum ≠ 7 →
      load_material sq skip m =
        MaterialDesc.mixture skip m.Kd m.Ks
          (max (1/1000) ((2 / (2 + m.Ns)) / sq (1 - (9/10) * m.an)))
          (max (1/1000) ((2 / (2 + m.Ns)) * sq (1 - (9/10) * m.an)))) := by
  have harg : 1 - m.an * (9/10) = 1 - (9/10) * m.an := by ring
  refine ⟨fun hs h5 => ?_, fun hs h7 => ?_, fun hs h57 => ?_, fun h5 h7 => ?_⟩
  · simp [load_material, hs, h5]
  · simp [load_material, hs, h7]
  · simp [load_material, hs, h57]
  · simp [load_material, h5, h7, harg]

/-- C7 witness: the four branches evaluated at concrete MTL records. -/
theorem C7_load_material_witness :
    load_material id false ⟨0, 0, 3/2, 10, 0, 5⟩ = MaterialDesc.mirror ∧
    load_material id false ⟨0, 0, 3/2, 10, 0, 7⟩ = MaterialDesc.glass (3/2) ∧
    load_material id true ⟨0, 0, 3/2, 10, 0, 5⟩ = MaterialDesc.diffuse 0 ∧
    load_material id false ⟨0, 0, 3/2, 10, 0, 2⟩ =
      MaterialDesc.mixture false 0 0
        (max (1/1000) ((2 / (2 + 10)) / id (1 - (9/10) * 0)))
        (max (1/1000) ((2 / (2 + 10)) * id (1 - (9/10) * 0))) := by
  refine ⟨?_, ?_, ?_, ?_⟩
  · exact (C7_load_material id false ⟨0, 0, 3/2, 10, 0, 5⟩).1 rfl rfl
  · exact (C7_load_material id false ⟨0, 0, 3/2, 10, 0, 7⟩).2.1 rfl rfl
  · exact (C7_load_material id true ⟨0, 0, 3/2, 10, 0, 5⟩).2.2.1 rfl (Or.inl rfl)
  · exact (C7_load_material id false ⟨0, 0, 3/2, 10, 0, 2⟩).2.2.2
      (by decide) (by decide)

/-!  ## Claims C5, C9, C10  -/

/-- C5: the Schlick factor of the glass material is `((1-Ni)/(1+Ni))²` at
normal incidence and 1 at grazing incidence; refraction reports total
internal reflection exactly when `1 - η²(1-(wi·n)²) < 0`, and in that case
`sample_direction` takes the reflection branch with probability 1 (for
every `u ∈ [0,1)`). -/
theorem C5_glass (sq : ℚ → ℚ) (Ni : ℚ) (wi wt n : Vec3) (eta u : ℚ) :
    (fresnel_cos wi wt n = 1 →
      glass_fresnel Ni wi wt n = ((1 - Ni) / (1 + Ni)) ^ 2) ∧
    (fresnel_cos wi wt n = 0 → glass_fresnel Ni wi wt n = 1) ∧
    ((math.refraction sq wi n eta).2 = true ↔
      1 - eta ^ 2 * (1 - (Vec3.dot wi n) ^ 2) < 0) ∧
    (0 ≤ u → u < 1 →
      1 - (if 0 < Vec3.dot wi n then 1 / Ni else Ni) ^ 2 *
          (1 - (Vec3.dot wi (if 0 < Vec3.dot wi n then n else -n)) ^ 2) < 0 →
      glass_sample_direction sq Ni n wi u =
        ⟨math.reflection wi n, 0, Vec3.splat3 1⟩) := by
  refine ⟨fun h => ?_, fun h => ?_, ?_, fun hu0 hu1 hdisc => ?_⟩
  · simp only [glass_fresnel, h]
    ring
  · simp only [glass_fresnel, h]
    ring
  · simp only [math.refraction]
    split <;> simp_all
  · by_cases hin : 0 < Vec3.dot wi n <;>
      simp only [glass_sample_direction, math.refraction, hin, if_true, if_false,
        reduceIte] <;>
      simp_all [hdisc]

/-- C5 witness: the four parts evaluated at `Ni = 3`, `η = 3`, and concrete
directions with normal `(0,0,1)`. -/
theorem C5_glass_witness :
    glass_fresnel 3 ⟨0, 0, 1⟩ 0 ⟨0, 0, 1⟩ = ((1 - 3) / (1 + 3) : ℚ) ^ 2 ∧
    glass_fresnel 3 ⟨1, 0, 0⟩ ⟨1, 0, 0⟩ ⟨0, 0, 1⟩ = 1 ∧
    (math.refraction id ⟨3/5, 0, 4/5⟩ ⟨0, 0, 1⟩ 3).2 = true ∧
    glass_sample_direction id 3 ⟨0, 0, 1⟩ ⟨3/5, 0, -4/5⟩ (1/2) =
      ⟨math.reflection ⟨3/5, 0, -4/5⟩ ⟨0, 0, 1⟩, 0, Vec3.splat3 1⟩ := by
  refine ⟨?_, ?_, ?_, ?_⟩
  · exact (C5_glass id 3 ⟨0, 0, 1⟩ 0 ⟨0, 0, 1⟩ 0 0).1
      (by norm_num [fresnel_cos, Vec3.dot])
  · exact (C5_glass id 3 ⟨1, 0, 0⟩ ⟨1, 0, 0⟩ ⟨0, 0, 1⟩ 0 0).2.1
      (by norm_num [fresnel_cos, Vec3.dot])
  · exact (C5_glass id 3 ⟨3/5, 0, 4/5⟩ 0 ⟨0, 0, 1⟩ 3 0).2.2.1.mpr
      (by norm_num [Vec3.dot])
  · exact (C5_glass id 3 ⟨3/5, 0, -4/5⟩ 0 ⟨0, 0, 1⟩ 0 (1/2)).2.2.2
      (by norm_num) (by norm_num) (by norm_num [Vec3.dot, Vec3.neg_def])

/-- C9: in the VolPT loop an emissive splat occurs only when the current
vertex was not samplable by NEE (its component is specular) and the sampled
interaction is a light; when the vertex was samplable by NEE, no emissive
splat is produced. -/
theorem C9_volpt_emissive (o : VolPTIterIn) :
    (o.specular_comp = false →
      ∀ v : ℚ, (SplatSrc.emissive, v) ∉ volpt_step o) ∧
    (∀ v : ℚ, (SplatSrc.emissive, v) ∈ volpt_step o →
      o.specular_comp = true ∧ o.sd_isLight = true) ∧
    (o.specular_comp = true → o.sd_isLight = true → o.s_ok = true →
      o.sd_ok = true →
      (SplatSrc.emissive, o.throughput * o.s_weight * o.sd_weight * o.Le) ∈
        volpt_step o) := by
  refine ⟨fun hspec v => ?_, fun v hv => ?_, fun hspec hlight hs hsd => ?_⟩
  · cases hok : o.s_ok <;> cases hok2 : o.sd_ok <;>
      simp [volpt_step, hspec, hok, hok2]
  · by_cases hspec : o.specular_comp <;>
      cases hok : o.s_ok <;> cases hok2 : o.sd_ok <;>
        cases hlight : o.sd_isLight <;>
          simp [volpt_step, hspec, hok, hok2, hlight] at hv ⊢
  · simp [volpt_step, hspec, hlight, hs, hsd]

/-- C9 witness: a specular vertex hitting a light produces the emissive
splat; a non-specular vertex never does. -/
theorem C9_volpt_emissive_witness :
    ((SplatSrc.emissive, ((2 : ℚ) * 3 * 5 * 7)) ∈
      volpt_step ⟨true, false, false, 0, 0, 0, true, 3, true, 5, true, 7, 2⟩) ∧
    ((SplatSrc.emissive, (1 : ℚ)) ∉
      volpt_step ⟨false, true, true, 1, 1, 1, true, 1, true, 1, true, 1, 1⟩) := by
  constructor
  · exact (C9_volpt_emissive
      ⟨true, false, false, 0, 0, 0, true, 3, true, 5, true, 7, 2⟩).2.2
      rfl rfl rfl rfl
  · exact (C9_volpt_emissive
      ⟨false, true, true, 1, 1, 1, true, 1, true, 1, true, 1, 1⟩).1 rfl 1

/-- C10: the Henyey-Greenstein phase function's `eval` equals
`Vec3(pdf_direction(...))` componentwise for every asymmetry parameter and
every pair of directions: the phase value is its own sampling density. -/
theorem C10_hg_eval_eq_pdf (g : ℝ) (wi wo : Vec3R) :
    hg_eval g wi wo = splatR (hg_pdf_direction g wi wo) ∧
    (hg_eval g wi wo).x = hg_pdf_direction g wi wo ∧
    (hg_eval g wi wo).y = hg_pdf_direction g wi wo ∧
    (hg_eval g wi wo).z = hg_pdf_direction g wi wo :=
  ⟨rfl, rfl, rfl, rfl⟩

/-!  ## Claim C6  -/

/-- C6 counterexample: `visible` is not symmetric for finite endpoints in
general.  With `ε = 1/10000`, endpoints at distance 2, and an occluder at
distance `3/20000` from the first endpoint, the occluder lies inside the
shadow-ray interval `(ε, 2(1-ε))` cast from the first endpoint but outside
the interval cast back from the second (its parameter `2 - 3/20000` exceeds
`2(1-ε)`): `visible(sp1, sp2)` is false while `visible(sp2, sp1)` is
true. -/
theorem C6_visible_not_symmetric_cex :
    visible (fun q => if q = 4 then 2 else 0) (1/10000) 0 [⟨3/20000, 0, 0⟩]
        ⟨⟨⟨0, 0, 0⟩, false, ⟨0, 0, 0⟩⟩⟩ ⟨⟨⟨2, 0, 0⟩, false, ⟨0, 0, 0⟩⟩⟩ = false ∧
    visible (fun q => if q = 4 then 2 else 0) (1/10000) 0 [⟨3/20000, 0, 0⟩]
        ⟨⟨⟨2, 0, 0⟩, false, ⟨0, 0, 0⟩⟩⟩ ⟨⟨⟨0, 0, 0⟩, false, ⟨0, 0, 0⟩⟩⟩ = true := by
  constructor <;>
    norm_num [visible, visibleAux, normalizeQ, distQ, intersectHit, hitOne,
      rayHitT, Vec3.dot, Vec3.sub_def, Vec3.add_def, Vec3.smul_def,
      Vec3.neg_def, List.any]

/-- C6 (amended): `visible(sp1, sp2) = visible(sp2, sp1)` when neither
endpoint is infinite and the two points are at unit distance, so that the
ε-trimmed parameter ranges of the two shadow rays coincide; at other
distances the asymmetric trimming (`tmin = ε` but `tmax = d·(1-ε)`) can
break symmetry. -/
theorem C6_visible_symm_unit (sq : ℚ → ℚ) (eps infV : ℚ) (occ : List Vec3)
    (sp1 sp2 : SceneInteraction)
    (h1 : sp1.geom.infinite = false) (h2 : sp2.geom.infinite = false)
    (hunit : sq (Vec3.dot (sp2.geom.p - sp1.geom.p)
      (sp2.geom.p - sp1.geom.p)) = 1) :
    visible sq eps infV occ sp1 sp2 = visible sq eps infV occ sp2 sp1 := by
  have hrev : sq (Vec3.dot (sp1.geom.p - sp2.geom.p)
      (sp1.geom.p - sp2.geom.p)) = 1 := by
    rw [Vec3.dot_sub_comm]
    exact hunit
  simp only [visible, h1, h2, Bool.false_eq_true, if_false]
  simp only [visibleAux, h1, h2, Bool.false_eq_true, if_false,
    normalizeQ, distQ, hunit, hrev, div_one, Vec3.one_smul3, one_mul]
  exact congrArg Bool.not
    (congrArg occ.any
      (funext fun q => (hitOne_reverse sp1.geom.p sp2.geom.p q eps).symm))

/-- C6 witness: the amended symmetry applied to two concrete points at unit
distance with an occluder between them. -/
theorem C6_visible_symm_unit_witness :
    visible (fun _ => 1) (1/10000) 0 [⟨1/2, 0, 0⟩]
        ⟨⟨⟨0, 0, 0⟩, false, ⟨0, 0, 0⟩⟩⟩ ⟨⟨⟨1, 0, 0⟩, false, ⟨0, 0, 0⟩⟩⟩ =
      visible (fun _ => 1) (1/10000) 0 [⟨1/2, 0, 0⟩]
        ⟨⟨⟨1, 0, 0⟩, false, ⟨0, 0, 0⟩⟩⟩ ⟨⟨⟨0, 0, 0⟩, false, ⟨0, 0, 0⟩⟩⟩ :=
  C6_visible_symm_unit (fun _ => 1) (1/10000) 0 [⟨1/2, 0, 0⟩]
    ⟨⟨⟨0, 0, 0⟩, false, ⟨0, 0, 0⟩⟩⟩ ⟨⟨⟨1, 0, 0⟩, false, ⟨0, 0, 0⟩⟩⟩
    rfl rfl rfl
